import Mathlib

/-!
# ptmerge: startup and lifecycle of `PTMergeServer`

A shallow embedding of `src/server/server.go`.

* `NewServer` is a pure function over the gin package globals: it sets the
  framework mode, builds the engine with its middleware chain and returns the
  server record.
* `Run` is a small-step machine over the statements of the Go function,
  labelled by their source lines.  The environment (`World`) supplies the
  outcome of `mgo.Dial`, of `http.Get` and whether the listener ever returns.
  Every externally visible action is appended to a trace of `Event`s.
-/

namespace PTMerge

/-! ## Library values used by `NewServer` -/

/-- Go `time.Duration`: a signed count of nanoseconds. -/
abbrev Duration := Int

/-- Go `time.Second`, in nanoseconds. -/
def time_Second : Duration := 1000000000

/-- The gin mode name `gin.DebugMode`. -/
def gin_DebugMode : String := "debug"

/-- The gin mode name `gin.ReleaseMode`. -/
def gin_ReleaseMode : String := "release"

/-- The package-level state of gin that `gin.SetMode` writes. -/
structure GinGlobals where
  modeName : String
deriving DecidableEq, Repr

/-- Library call `gin.SetMode(value)`: records the mode name. -/
def gin_SetMode (value : String) (g : GinGlobals) : GinGlobals :=
  { g with modeName := value }

/-- The option record `cors.Config` of gin-cors, with the fields the source sets. -/
structure cors_Config where
  Origins : String
  Methods : String
  RequestHeaders : String
  ExposedHeaders : String
  MaxAge : Duration
  Credentials : Bool
  ValidateHeaders : Bool
deriving DecidableEq, Repr

/-- The middleware values that can sit in the engine chain. -/
inductive HandlerFunc where
  | Logger
  | Recovery
  | Cors (cfg : cors_Config)
deriving DecidableEq, Repr

/-- Library call `cors.Middleware(config)`: the handler built from a config. -/
def cors_Middleware (cfg : cors_Config) : HandlerFunc := HandlerFunc.Cors cfg

/-- A `gin.Engine`: its global middleware chain, in installation order, and
the routes registered on it as (method, path) pairs. -/
structure Engine where
  Handlers : List HandlerFunc
  routes : List (String × String)
deriving DecidableEq, Repr

/-- Library call `gin.New()`: an engine with no middleware and no route. -/
def gin_New : Engine := { Handlers := [], routes := [] }

/-- Library call `engine.Use(middleware...)`: appends to the chain. -/
def Engine.Use (e : Engine) (hs : List HandlerFunc) : Engine :=
  { e with Handlers := e.Handlers ++ hs }

/-- Library call `gin.Default()`: a new engine with the logger and recovery
middleware already attached (source line 32 and its comment). -/
def gin_Default : Engine := gin_New.Use [HandlerFunc.Logger, HandlerFunc.Recovery]

/-- An `mgo.Session` handle, identified by a number. -/
structure Session where
  id : Nat
deriving DecidableEq, Repr

/-- The part of an `http.Response` the caller could look at. -/
structure Response where
  StatusCode : Nat
deriving DecidableEq, Repr

/-! ## The server record and `NewServer` -/

/-- The Go struct `PTMergeServer`; a nil `*mgo.Session` is `none`. -/
structure PTMergeServer where
  Engine : Engine
  FHIRHost : String
  DatabaseHost : String
  DatabaseName : String
  Session : Option Session
deriving DecidableEq, Repr

/-- The value `cors.Config` literal of source lines 33 to 41. -/
def corsConfig : cors_Config :=
  { Origins := "*"
    Methods := "GET, PUT, POST, DELETE"
    RequestHeaders := "Origin, Authorization, Content-Type, If-Match, If-None-Exist"
    ExposedHeaders := "Location, ETag, Last-Modified"
    MaxAge := 86400 * time_Second
    Credentials := true
    ValidateHeaders := false }

/-- Go `NewServer(fhirhost, dbhost, dbname, debug)` over the gin globals:
returns the new server and the globals after the call. -/
def NewServer (fhirhost dbhost dbname : String) (debug : Bool) (g : GinGlobals) :
    PTMergeServer × GinGlobals :=
  let g1 := if debug then gin_SetMode gin_DebugMode g else gin_SetMode gin_ReleaseMode g
  let engine := gin_Default
  let engine := engine.Use [cors_Middleware corsConfig]
  ({ Engine := engine
     FHIRHost := fhirhost
     DatabaseHost := dbhost
     DatabaseName := dbname
     Session := none }, g1)

/-! ## The environment of `Run` and its observable events -/

/-- What the outside world answers to the three blocking calls of `Run`. -/
structure World where
  /-- Outcome of `mgo.Dial(addr)`: a session or an error. -/
  mgo_Dial : String → Except String Session
  /-- Outcome of `http.Get(url)`: a response or a transport error. -/
  http_Get : String → Except String Response
  /-- Whether `Engine.Run(addr)` ever returns (it returns only with an error). -/
  listenReturns : String → Bool

/-- The externally visible actions of `Run`, in the order they happen. -/
inductive Event where
  | log (line : String)
  | dial (addr : String) (res : Except String Session)
  | get (url : String) (res : Except String Response)
  | registerRoutes (e : Engine) (s : Option Session) (db : String) (fhir : String)
  | listen (addr : String)
  | close (s : Option Session)
  | exit (code : Int)

/-- Go `log.Println(s)`: one line, newline appended. -/
def log_Println (s : String) : Event := Event.log (s ++ "\n")

/-- Go `log.Printf(pre ++ "%s\n", arg)` for the one-verb formats of `Run`. -/
def log_Printf (pre : String) (arg : String) : Event := Event.log (pre ++ arg ++ "\n")

/-- Source lines of `Run` that are statements; `L86` is the closing brace,
where the function returns and its deferred calls run. -/
inductive PC where
  | L55 | L58 | L59 | L60 | L61 | L62 | L64 | L69 | L70 | L73 | L74
  | L75 | L76 | L77 | L79 | L82 | L83 | L85 | L86
deriving DecidableEq, Repr

/-- How the execution of `Run` stands: still executing, process ended by
`os.Exit`, function returned, or blocked for good inside the listener. -/
inductive Status where
  | running
  | exited (code : Int)
  | returned
  | serving
deriving DecidableEq, Repr

/-- A call recorded by a `defer` statement, its receiver already evaluated. -/
inductive Deferred where
  | SessionClose (s : Option Session)
deriving DecidableEq, Repr

/-- The state of one execution of `Run`: program point, the receiver `p`,
the locals `session` and `err`, the deferred calls (latest first), the
events so far and the status. -/
structure State where
  pc : PC
  p : PTMergeServer
  session : Option Session
  err : Option String
  deferred : List Deferred
  trace : List Event
  status : Status

/-- The event a deferred call produces when it runs. -/
def Deferred.run : Deferred → Event
  | Deferred.SessionClose s => Event.close s

/-- Go `os.Exit(code)`: the process ends at once; deferred calls do not run. -/
def os_Exit (code : Int) (st : State) : State :=
  { st with trace := st.trace ++ [Event.exit code], status := Status.exited code }

/-- Appends one event and moves to the next statement. -/
def State.emit (st : State) (e : Event) (next : PC) : State :=
  { st with trace := st.trace ++ [e], pc := next }

/-- One statement of `Run`, by source line. A state that is not running
does not move. -/
def step (w : World) (st : State) : State :=
  match st.status with
  | Status.running =>
    match st.pc with
    | PC.L55 => st.emit (log_Println "Starting ptmerge service...") PC.L58
    | PC.L58 => st.emit (log_Println "Connecting to mongodb...") PC.L59
    | PC.L59 =>
      match w.mgo_Dial st.p.DatabaseHost with
      | Except.ok s =>
        { st with session := some s, err := none, pc := PC.L60
                  trace := st.trace ++ [Event.dial st.p.DatabaseHost (Except.ok s)] }
      | Except.error e =>
        { st with session := none, err := some e, pc := PC.L60
                  trace := st.trace ++ [Event.dial st.p.DatabaseHost (Except.error e)] }
    | PC.L60 =>
      match st.err with
      | some _ => { st with pc := PC.L61 }
      | none => { st with pc := PC.L64 }
    | PC.L61 =>
      st.emit (log_Printf "Failed to connect to mongodb at " st.p.DatabaseHost) PC.L62
    | PC.L62 => os_Exit 1 st
    | PC.L64 => st.emit (log_Printf "Connected to mongodb at " st.p.DatabaseHost) PC.L69
    | PC.L69 => { st with p := { st.p with Session := st.session }, pc := PC.L70 }
    | PC.L70 =>
      { st with deferred := Deferred.SessionClose st.p.Session :: st.deferred, pc := PC.L73 }
    | PC.L73 => st.emit (log_Println "Connecting to host FHIR server...") PC.L74
    | PC.L74 =>
      match w.http_Get (st.p.FHIRHost ++ "/metadata") with
      | Except.ok r =>
        { st with err := none, pc := PC.L75
                  trace := st.trace ++ [Event.get (st.p.FHIRHost ++ "/metadata") (Except.ok r)] }
      | Except.error e =>
        { st with err := some e, pc := PC.L75
                  trace := st.trace ++ [Event.get (st.p.FHIRHost ++ "/metadata") (Except.error e)] }
    | PC.L75 =>
      match st.err with
      | some _ => { st with pc := PC.L76 }
      | none => { st with pc := PC.L79 }
    | PC.L76 =>
      st.emit (log_Printf "Host FHIR server unavailable. Could not reach " st.p.FHIRHost) PC.L77
    | PC.L77 => os_Exit 1 st
    | PC.L79 => st.emit (log_Printf "Connected to host FHIR server at " st.p.FHIRHost) PC.L82
    | PC.L82 =>
      st.emit (Event.registerRoutes st.p.Engine st.p.Session st.p.DatabaseName st.p.FHIRHost)
        PC.L83
    | PC.L83 => st.emit (log_Println "Started ptmerge service!") PC.L85
    | PC.L85 =>
      if w.listenReturns ":5000" then
        { st with trace := st.trace ++ [Event.listen ":5000"], pc := PC.L86 }
      else
        { st with trace := st.trace ++ [Event.listen ":5000"], status := Status.serving }
    | PC.L86 =>
      { st with trace := st.trace ++ st.deferred.map Deferred.run, deferred := []
                status := Status.returned }
  | _ => st

/-- The state at the call of `p.Run()`: first statement, nothing done yet. -/
def initState (p : PTMergeServer) : State :=
  { pc := PC.L55, p := p, session := none, err := none, deferred := [], trace := []
    status := Status.running }

/-- The state after `n` statements of `Run`. -/
def runFor (w : World) : Nat → State → State
  | 0, st => st
  | n + 1, st => runFor w n (step w st)

/-- An upper bound on the number of statements one call of `Run` executes. -/
def runFuel : Nat := 16

/-- Go `(p *PTMergeServer).Run()`: the state in which the execution stands
for good. -/
def Run (w : World) (p : PTMergeServer) : State :=
  runFor w runFuel (initState p)

/-! ## The segments of a trace of `Run` -/

/-- The events of `Run` up to and including the dial. -/
def traceDial (p : PTMergeServer) (res : Except String Session) : List Event :=
  [ log_Println "Starting ptmerge service...",
    log_Println "Connecting to mongodb...",
    Event.dial p.DatabaseHost res ]

/-- The events of `Run` from the successful dial up to and including the probe. -/
def traceProbe (p : PTMergeServer) (res : Except String Response) : List Event :=
  [ log_Printf "Connected to mongodb at " p.DatabaseHost,
    log_Println "Connecting to host FHIR server...",
    Event.get (p.FHIRHost ++ "/metadata") res ]

/-- The events of `Run` from the successful probe up to the listener start. -/
def traceServe (p : PTMergeServer) (s : Session) : List Event :=
  [ log_Printf "Connected to host FHIR server at " p.FHIRHost,
    Event.registerRoutes p.Engine (some s) p.DatabaseName p.FHIRHost,
    log_Println "Started ptmerge service!",
    Event.listen ":5000" ]

/-! ## Reading a trace -/

/-- Is the event a call of `mgo.Dial`? -/
def Event.isDial : Event → Bool
  | Event.dial _ _ => true
  | _ => false

/-- Is the event an HTTP GET? -/
def Event.isGet : Event → Bool
  | Event.get _ _ => true
  | _ => false

/-- Is the event a call of `RegisterRoutes`? -/
def Event.isRegisterRoutes : Event → Bool
  | Event.registerRoutes _ _ _ _ => true
  | _ => false

/-- Is the event the start of the listener? -/
def Event.isListen : Event → Bool
  | Event.listen _ => true
  | _ => false

/-- Is the event a `Close` of a session? -/
def Event.isClose : Event → Bool
  | Event.close _ => true
  | _ => false

/-- Is the event a process exit? -/
def Event.isExit : Event → Bool
  | Event.exit _ => true
  | _ => false

/-- Is the event an effect on the world outside the log: a dial, a GET, a
`RegisterRoutes` call, a listener start, a `Close` or a process exit? -/
def Event.isExternal : Event → Bool
  | Event.log _ => false
  | _ => true

/-- Has a dial returned a session in this trace? -/
def dialSucceeded (t : List Event) : Bool :=
  t.any fun e => match e with
    | Event.dial _ (Except.ok _) => true
    | _ => false

/-- Has a GET returned a response in this trace? -/
def probeSucceeded (t : List Event) : Bool :=
  t.any fun e => match e with
    | Event.get _ (Except.ok _) => true
    | _ => false

/-- The cross-origin configurations installed in an engine chain, in order. -/
def Engine.corsConfigs (e : Engine) : List cors_Config :=
  e.Handlers.filterMap fun h => match h with
    | HandlerFunc.Cors c => some c
    | _ => none

/-! ## Concrete environments -/

/-- A server as `NewServer` builds it, for the concrete runs below. -/
def demoServer : PTMergeServer :=
  (NewServer "http://fhir:3001" "mongo:27017" "ptmerge" false { modeName := "debug" }).1

/-- A world where the store cannot be dialed. -/
def worldStoreDown : World :=
  { mgo_Dial := fun _ => Except.error "no reachable servers"
    http_Get := fun _ => Except.ok { StatusCode := 200 }
    listenReturns := fun _ => false }

/-- A world where the store answers and the FHIR server cannot be reached. -/
def worldProbeDown : World :=
  { mgo_Dial := fun _ => Except.ok { id := 7 }
    http_Get := fun _ => Except.error "connection refused"
    listenReturns := fun _ => false }

/-- A world where both dependencies answer (the probe with status 500) and
the listener serves for good. -/
def worldUp : World :=
  { mgo_Dial := fun _ => Except.ok { id := 7 }
    http_Get := fun _ => Except.ok { StatusCode := 500 }
    listenReturns := fun _ => false }

/-- A world where both dependencies answer and the listener returns, as it
does when the port is taken. -/
def worldPortTaken : World :=
  { mgo_Dial := fun _ => Except.ok { id := 7 }
    http_Get := fun _ => Except.ok { StatusCode := 200 }
    listenReturns := fun _ => true }

/-! ## The four executions of `Run`, as equations -/

theorem Run_dial_error (w : World) (p : PTMergeServer) (e : String)
    (hd : w.mgo_Dial p.DatabaseHost = Except.error e) :
    Run w p =
      { pc := PC.L62, p := p, session := none, err := some e, deferred := []
        trace := traceDial p (Except.error e) ++
          [ log_Printf "Failed to connect to mongodb at " p.DatabaseHost, Event.exit 1 ]
        status := Status.exited 1 } := by
  simp [Run, runFuel, runFor, initState, step, State.emit, os_Exit, hd, traceDial]

theorem Run_probe_error (w : World) (p : PTMergeServer) (s : Session) (e : String)
    (hd : w.mgo_Dial p.DatabaseHost = Except.ok s)
    (hg : w.http_Get (p.FHIRHost ++ "/metadata") = Except.error e) :
    Run w p =
      { pc := PC.L77, p := { p with Session := some s }, session := some s, err := some e
        deferred := [Deferred.SessionClose (some s)]
        trace := traceDial p (Except.ok s) ++ traceProbe p (Except.error e) ++
          [ log_Printf "Host FHIR server unavailable. Could not reach " p.FHIRHost,
            Event.exit 1 ]
        status := Status.exited 1 } := by
  simp [Run, runFuel, runFor, initState, step, State.emit, os_Exit, hd, hg, traceDial,
    traceProbe]

theorem Run_serving (w : World) (p : PTMergeServer) (s : Session) (r : Response)
    (hd : w.mgo_Dial p.DatabaseHost = Except.ok s)
    (hg : w.http_Get (p.FHIRHost ++ "/metadata") = Except.ok r)
    (hl : w.listenReturns ":5000" = false) :
    Run w p =
      { pc := PC.L85, p := { p with Session := some s }, session := some s, err := none
        deferred := [Deferred.SessionClose (some s)]
        trace := traceDial p (Except.ok s) ++ traceProbe p (Except.ok r) ++ traceServe p s
        status := Status.serving } := by
  simp [Run, runFuel, runFor, initState, step, State.emit, hd, hg, hl, traceDial,
    traceProbe, traceServe]

theorem Run_returned (w : World) (p : PTMergeServer) (s : Session) (r : Response)
    (hd : w.mgo_Dial p.DatabaseHost = Except.ok s)
    (hg : w.http_Get (p.FHIRHost ++ "/metadata") = Except.ok r)
    (hl : w.listenReturns ":5000" = true) :
    Run w p =
      { pc := PC.L86, p := { p with Session := some s }, session := some s, err := none
        deferred := []
        trace := traceDial p (Except.ok s) ++ traceProbe p (Except.ok r) ++ traceServe p s ++
          [Event.close (some s)]
        status := Status.returned } := by
  simp [Run, runFuel, runFor, initState, step, State.emit, hd, hg, hl, traceDial,
    traceProbe, traceServe, Deferred.run]

/-! ## Auxiliary facts -/

theorem runFor_add (w : World) (m n : Nat) (st : State) :
    runFor w (m + n) st = runFor w n (runFor w m st) := by
  induction m generalizing st with
  | zero => simp [runFor]
  | succ k ih => rw [Nat.succ_add]; simp [runFor, ih]

theorem step_halted (w : World) (st : State) (h : st.status ≠ Status.running) :
    step w st = st := by
  unfold step
  split
  · rename_i hs; exact absurd hs h
  · rfl

theorem runFor_halted (w : World) (n : Nat) (st : State) (h : st.status ≠ Status.running) :
    runFor w n st = st := by
  induction n with
  | zero => rfl
  | succ k ih => simp [runFor, step_halted w st h, ih]

/-- Every execution of `Run` comes to a stand within `runFuel` statements. -/
theorem Run_halts (w : World) (p : PTMergeServer) : (Run w p).status ≠ Status.running := by
  cases hd : w.mgo_Dial p.DatabaseHost with
  | error e => simp [Run_dial_error w p e hd]
  | ok s =>
    cases hg : w.http_Get (p.FHIRHost ++ "/metadata") with
    | error e => simp [Run_probe_error w p s e hd hg]
    | ok r =>
      cases hl : w.listenReturns ":5000" with
      | false => simp [Run_serving w p s r hd hg hl]
      | true => simp [Run_returned w p s r hd hg hl]

/-- The states of an execution are those of its first `runFuel` statements. -/
theorem runFor_eq_min (w : World) (p : PTMergeServer) (n : Nat) :
    runFor w n (initState p) = runFor w (min n runFuel) (initState p) := by
  rcases Nat.le_total n runFuel with h | h
  · rw [Nat.min_eq_left h]
  · rw [Nat.min_eq_right h]
    obtain ⟨d, rfl⟩ := Nat.exists_eq_add_of_le h
    rw [runFor_add]
    exact runFor_halted w d _ (Run_halts w p)

/-- Every trace of `Run` starts with the two opening log lines and the dial. -/
theorem Run_trace_starts (w : World) (p : PTMergeServer) :
    ∃ res rest, (Run w p).trace = traceDial p res ++ rest := by
  cases hd : w.mgo_Dial p.DatabaseHost with
  | error e => exact ⟨_, _, by rw [Run_dial_error w p e hd]⟩
  | ok s =>
    cases hg : w.http_Get (p.FHIRHost ++ "/metadata") with
    | error e => exact ⟨_, _, by rw [Run_probe_error w p s e hd hg, List.append_assoc]⟩
    | ok r =>
      cases hl : w.listenReturns ":5000" with
      | false => exact ⟨_, _, by rw [Run_serving w p s r hd hg hl, List.append_assoc]⟩
      | true =>
        exact ⟨_, _, by rw [Run_returned w p s r hd hg hl, List.append_assoc, List.append_assoc]⟩

/-! ## Fail-fast ordering and fatal exits -/

/-- C1: if the store dial returns an error, the trace of `Run` holds no HTTP
GET; and in every trace, whatever the world answers, a GET event has a dial
event somewhere before it. -/
theorem Run_failfast_ordering (w : World) (p : PTMergeServer) :
    ((∃ e, w.mgo_Dial p.DatabaseHost = Except.error e) →
        ∀ ev ∈ (Run w p).trace, ev.isGet = false) ∧
    (∀ pre ev post, (Run w p).trace = pre ++ ev :: post → ev.isGet = true →
        ∃ d ∈ pre, d.isDial = true) := by
  constructor
  · rintro ⟨e, hd⟩ ev hev
    rw [Run_dial_error w p e hd] at hev
    simp [traceDial, log_Println, log_Printf] at hev
    rcases hev with h | h | h | h | h <;> simp [h, Event.isGet]
  · intro pre ev post htr hget
    obtain ⟨res, rest, hst⟩ := Run_trace_starts w p
    rw [hst] at htr
    rcases pre with _ | ⟨a, _ | ⟨b, _ | ⟨c, pre⟩⟩⟩
    · simp [traceDial, log_Println] at htr
      rw [← htr.1] at hget
      simp [Event.isGet] at hget
    · simp [traceDial, log_Println] at htr
      rw [← htr.2.1] at hget
      simp [Event.isGet] at hget
    · simp [traceDial, log_Println] at htr
      rw [← htr.2.2.1] at hget
      simp [Event.isGet] at hget
    · simp [traceDial, log_Println] at htr
      refine ⟨c, by simp, ?_⟩
      rw [← htr.2.2.1]
      rfl

/-- Witness of C1: with the store down the premise holds and no GET is in the
trace; with both dependencies up the GET sits after the dial. -/
theorem Run_failfast_ordering_witness :
    ((∃ e, worldStoreDown.mgo_Dial demoServer.DatabaseHost = Except.error e) ∧
      ∀ ev ∈ (Run worldStoreDown demoServer).trace, ev.isGet = false) ∧
    ((Run worldUp demoServer).trace =
        (traceDial demoServer (Except.ok { id := 7 }) ++
          [log_Printf "Connected to mongodb at " demoServer.DatabaseHost,
           log_Println "Connecting to host FHIR server..."]) ++
        Event.get (demoServer.FHIRHost ++ "/metadata") (Except.ok { StatusCode := 500 }) ::
          traceServe demoServer { id := 7 } ∧
      ∃ d ∈ traceDial demoServer (Except.ok { id := 7 }) ++
          [log_Printf "Connected to mongodb at " demoServer.DatabaseHost,
           log_Println "Connecting to host FHIR server..."], d.isDial = true) :=
  have htr : (Run worldUp demoServer).trace =
        (traceDial demoServer (Except.ok { id := 7 }) ++
          [log_Printf "Connected to mongodb at " demoServer.DatabaseHost,
           log_Println "Connecting to host FHIR server..."]) ++
        Event.get (demoServer.FHIRHost ++ "/metadata") (Except.ok { StatusCode := 500 }) ::
          traceServe demoServer { id := 7 } := by
    rw [Run_serving worldUp demoServer { id := 7 } { StatusCode := 500 } rfl rfl rfl]
    simp [traceProbe]
  ⟨⟨⟨_, rfl⟩, (Run_failfast_ordering worldStoreDown demoServer).1 ⟨_, rfl⟩⟩,
   ⟨htr, (Run_failfast_ordering worldUp demoServer).2 _ _ _ htr rfl⟩⟩

/-- C2: if the dial fails, or the dial succeeds and the probe fails, `Run`
ends the process with exit status 1 (the last event is that exit), and its
trace holds neither a `RegisterRoutes` call nor a listener start. -/
theorem Run_fatal_exit (w : World) (p : PTMergeServer)
    (h : (∃ e, w.mgo_Dial p.DatabaseHost = Except.error e) ∨
      (∃ s e, w.mgo_Dial p.DatabaseHost = Except.ok s ∧
        w.http_Get (p.FHIRHost ++ "/metadata") = Except.error e)) :
    (Run w p).status = Status.exited 1 ∧
    (∃ pre, (Run w p).trace = pre ++ [Event.exit 1]) ∧
    (∀ ev ∈ (Run w p).trace, ev.isRegisterRoutes = false ∧ ev.isListen = false) := by
  rcases h with ⟨e, hd⟩ | ⟨s, e, hd, hg⟩
  · rw [Run_dial_error w p e hd]
    refine ⟨rfl, ⟨_, (List.append_assoc _ [_] [_]).symm⟩, ?_⟩
    intro ev hev
    simp [traceDial, log_Println, log_Printf] at hev
    rcases hev with h | h | h | h | h <;> simp [h, Event.isRegisterRoutes, Event.isListen]
  · rw [Run_probe_error w p s e hd hg]
    refine ⟨rfl, ⟨_, (List.append_assoc _ [_] [_]).symm⟩, ?_⟩
    intro ev hev
    simp [traceDial, traceProbe, log_Println, log_Printf] at hev
    rcases hev with h | h | h | h | h | h | h | h <;>
      simp [h, Event.isRegisterRoutes, Event.isListen]

/-- Witness of C2, on the run whose probe fails after a successful dial. -/
theorem Run_fatal_exit_witness :
    (Run worldProbeDown demoServer).status = Status.exited 1 ∧
    (∃ pre, (Run worldProbeDown demoServer).trace = pre ++ [Event.exit 1]) ∧
    (∀ ev ∈ (Run worldProbeDown demoServer).trace,
      ev.isRegisterRoutes = false ∧ ev.isListen = false) :=
  Run_fatal_exit worldProbeDown demoServer (Or.inr ⟨{ id := 7 }, "connection refused", rfl, rfl⟩)

/-! ## The successful start -/

/-- C3, as stated, fails: on a run where both dependencies answer and the
listener returns, the effects of `Run` outside the log are five, the deferred
`Close` of the dialed session coming after the listener start, and so they are
not the four-effect sequence of the claim. -/
theorem Run_success_fifth_effect :
    (Run worldPortTaken demoServer).trace.filter Event.isExternal =
      [ Event.dial demoServer.DatabaseHost (Except.ok { id := 7 }),
        Event.get (demoServer.FHIRHost ++ "/metadata") (Except.ok { StatusCode := 200 }),
        Event.registerRoutes demoServer.Engine (some { id := 7 }) demoServer.DatabaseName
          demoServer.FHIRHost,
        Event.listen ":5000",
        Event.close (some { id := 7 }) ] ∧
    (Run worldPortTaken demoServer).trace.filter Event.isExternal ≠
      [ Event.dial demoServer.DatabaseHost (Except.ok { id := 7 }),
        Event.get (demoServer.FHIRHost ++ "/metadata") (Except.ok { StatusCode := 200 }),
        Event.registerRoutes demoServer.Engine (some { id := 7 }) demoServer.DatabaseName
          demoServer.FHIRHost,
        Event.listen ":5000" ] := by
  rw [Run_returned worldPortTaken demoServer { id := 7 } { StatusCode := 200 } rfl rfl rfl]
  constructor
  · simp [traceDial, traceProbe, traceServe, log_Println, log_Printf, List.filter,
      Event.isExternal]
  · simp [traceDial, traceProbe, traceServe, log_Println, log_Printf, List.filter,
      Event.isExternal]

/-- C3, amended: when the dial returns a session and the GET returns a
response, whatever its status code, the effects of `Run` outside the log are
exactly, in order and once each: the dial of `DatabaseHost`, the GET of
`FHIRHost ++ "/metadata"`, `RegisterRoutes` with the engine, the dialed
session, `DatabaseName` and `FHIRHost`, the listener start on `":5000"`, and,
when the listener returns and only then, one `Close` of the dialed session
after it. -/
theorem Run_success_effects (w : World) (p : PTMergeServer) (s : Session) (r : Response)
    (hd : w.mgo_Dial p.DatabaseHost = Except.ok s)
    (hg : w.http_Get (p.FHIRHost ++ "/metadata") = Except.ok r) :
    (Run w p).trace.filter Event.isExternal =
      [ Event.dial p.DatabaseHost (Except.ok s),
        Event.get (p.FHIRHost ++ "/metadata") (Except.ok r),
        Event.registerRoutes p.Engine (some s) p.DatabaseName p.FHIRHost,
        Event.listen ":5000" ] ++
      (if w.listenReturns ":5000" = true then [Event.close (some s)] else []) := by
  cases hl : w.listenReturns ":5000" with
  | false =>
    rw [Run_serving w p s r hd hg hl]
    simp [traceDial, traceProbe, traceServe, log_Println, log_Printf, List.filter,
      Event.isExternal]
  | true =>
    rw [Run_returned w p s r hd hg hl]
    simp [traceDial, traceProbe, traceServe, log_Println, log_Printf, List.filter,
      Event.isExternal]

/-- Witness of C3 amended, on a run whose probe is answered with status 500
and whose listener serves for good. -/
theorem Run_success_effects_witness :
    (Run worldUp demoServer).trace.filter Event.isExternal =
      [ Event.dial demoServer.DatabaseHost (Except.ok { id := 7 }),
        Event.get (demoServer.FHIRHost ++ "/metadata") (Except.ok { StatusCode := 500 }),
        Event.registerRoutes demoServer.Engine (some { id := 7 }) demoServer.DatabaseName
          demoServer.FHIRHost,
        Event.listen ":5000" ] ++
      (if worldUp.listenReturns ":5000" = true then [Event.close (some { id := 7 })] else []) :=
  Run_success_effects worldUp demoServer { id := 7 } { StatusCode := 500 } rfl rfl

/-! ## The deferred `Close` and the `Session` field -/

/-- C4: on the run whose probe fails after a successful dial, the process
exits with status 1 while the deferred `Close` of the dialed session is still
pending, and the trace holds no `Close`; on the run whose listener returns,
the deferred call runs and `Close` happens exactly once. -/
theorem Run_exit_skips_deferred_Close :
    (Run worldProbeDown demoServer).status = Status.exited 1 ∧
    (Run worldProbeDown demoServer).deferred = [Deferred.SessionClose (some { id := 7 })] ∧
    (Run worldProbeDown demoServer).trace.filter Event.isClose = [] ∧
    (Run worldPortTaken demoServer).status = Status.returned ∧
    (Run worldPortTaken demoServer).trace.filter Event.isClose =
      [Event.close (some { id := 7 })] := by
  rw [Run_probe_error worldProbeDown demoServer { id := 7 } "connection refused" rfl rfl,
    Run_returned worldPortTaken demoServer { id := 7 } { StatusCode := 200 } rfl rfl rfl]
  simp [traceDial, traceProbe, traceServe, log_Println, log_Printf, List.filter, Event.isClose]

theorem reach_within_fuel (w : World) (p : PTMergeServer) (k : Nat) :
    ∃ j, j ≤ 16 ∧ runFor w k (initState p) = runFor w j (initState p) :=
  ⟨min k runFuel, Nat.min_le_right _ _, runFor_eq_min w p k⟩

theorem runFor_succ_eq_step (w : World) (k : Nat) (st : State) :
    runFor w (k + 1) st = step w (runFor w k st) := by
  rw [runFor_add]; rfl

theorem session_nil_before_dial (w : World) (p : PTMergeServer) (hp : p.Session = none)
    (j : Nat) (hj : j ≤ 16)
    (h : dialSucceeded (runFor w j (initState p)).trace = false) :
    (runFor w j (initState p)).p.Session = none ∧ (runFor w j (initState p)).deferred = [] := by
  revert h
  interval_cases j <;>
    cases hd : w.mgo_Dial p.DatabaseHost <;>
    cases hg : w.http_Get (p.FHIRHost ++ "/metadata") <;>
    cases hl : w.listenReturns ":5000" <;>
    simp [runFor, step, initState, State.emit, os_Exit, hd, hg, hl, hp, dialSucceeded,
      log_Println, log_Printf, Deferred.run]

theorem session_set_before_probe (w : World) (p : PTMergeServer)
    (j : Nat) (hj : j ≤ 16)
    (h : (runFor w j (initState p)).trace.any Event.isGet = true) :
    ∃ s, w.mgo_Dial p.DatabaseHost = Except.ok s ∧
      (runFor w j (initState p)).p.Session = some s ∧
      ((runFor w j (initState p)).deferred = [Deferred.SessionClose (some s)] ∨
        (runFor w j (initState p)).status = Status.returned) := by
  revert h
  interval_cases j <;>
    cases hd : w.mgo_Dial p.DatabaseHost <;>
    cases hg : w.http_Get (p.FHIRHost ++ "/metadata") <;>
    cases hl : w.listenReturns ":5000" <;>
    simp [runFor, step, initState, State.emit, os_Exit, hd, hg, hl,
      log_Println, log_Printf, Deferred.run, Event.isGet]

theorem session_set_at_probe (w : World) (p : PTMergeServer)
    (j : Nat) (hj : j ≤ 16)
    (h : (runFor w j (initState p)).pc = PC.L73 ∨ (runFor w j (initState p)).pc = PC.L74) :
    (runFor w j (initState p)).trace.any Event.isGet = false ∧
    ∃ s, w.mgo_Dial p.DatabaseHost = Except.ok s ∧
      (runFor w j (initState p)).p.Session = some s ∧
      (runFor w j (initState p)).deferred = [Deferred.SessionClose (some s)] := by
  revert h
  interval_cases j <;>
    cases hd : w.mgo_Dial p.DatabaseHost <;>
    cases hg : w.http_Get (p.FHIRHost ++ "/metadata") <;>
    cases hl : w.listenReturns ":5000" <;>
    simp [runFor, step, initState, State.emit, os_Exit, hd, hg, hl,
      log_Println, log_Printf, Deferred.run, Event.isGet]

theorem probe_point_reached (w : World) (p : PTMergeServer) (s : Session)
    (hd : w.mgo_Dial p.DatabaseHost = Except.ok s) :
    (runFor w 8 (initState p)).pc = PC.L74 ∧
    (runFor w 8 (initState p)).status = Status.running := by
  simp [runFor, step, initState, State.emit, hd]

theorem session_kept_by_step (w : World) (p : PTMergeServer) (hp : p.Session = none)
    (j : Nat) (hj : j ≤ 16) (s : Session)
    (h : (runFor w j (initState p)).p.Session = some s) :
    (runFor w (j + 1) (initState p)).p.Session = some s := by
  revert h
  interval_cases j <;>
    cases hd : w.mgo_Dial p.DatabaseHost <;>
    cases hg : w.http_Get (p.FHIRHost ++ "/metadata") <;>
    cases hl : w.listenReturns ":5000" <;>
    simp [runFor, step, initState, State.emit, os_Exit, hd, hg, hl, hp,
      log_Println, log_Printf, Deferred.run]

theorem session_kept (w : World) (p : PTMergeServer) (hp : p.Session = none)
    (k m : Nat) (s : Session)
    (h : (runFor w k (initState p)).p.Session = some s) :
    (runFor w (k + m) (initState p)).p.Session = some s := by
  induction m with
  | zero => exact h
  | succ m ih =>
    obtain ⟨j, hj, hjeq⟩ := reach_within_fuel w p (k + m)
    rw [← Nat.add_assoc, runFor_succ_eq_step, hjeq, ← runFor_succ_eq_step]
    exact session_kept_by_step w p hp j hj s (hjeq ▸ ih)

/-- C5, as stated, fails: seven statements into a run against a reachable
store, the dial has succeeded, the probe has not been issued yet, and the
`Session` field already holds the dialed session, its `Close` deferred. -/
theorem Run_session_assigned_before_probe :
    (runFor worldUp 7 (initState demoServer)).status = Status.running ∧
    (runFor worldUp 7 (initState demoServer)).pc = PC.L73 ∧
    dialSucceeded (runFor worldUp 7 (initState demoServer)).trace = true ∧
    probeSucceeded (runFor worldUp 7 (initState demoServer)).trace = false ∧
    (runFor worldUp 7 (initState demoServer)).trace.any Event.isGet = false ∧
    (runFor worldUp 7 (initState demoServer)).p.Session = some { id := 7 } ∧
    (runFor worldUp 7 (initState demoServer)).deferred =
      [Deferred.SessionClose (some { id := 7 })] := by
  simp [runFor, step, initState, State.emit, worldUp, demoServer, NewServer, dialSucceeded,
    probeSucceeded, log_Println, log_Printf, Event.isGet]

/-- C5, amended: for a server built by `NewServer`, (1) in every state of
`Run` reached before the dial has succeeded the `Session` field is nil and
nothing is deferred; (2) in every state standing at line 73 or 74, that is
after the assignment and the `defer` and before the GET is issued, no GET is
in the trace, the field holds the dialed session and its `Close` is deferred;
(3) when the dial succeeds the state standing at line 74 is reached, after
eight statements; (4) in every state reached once the GET has been issued the
field holds the dialed session, whose `Close` is deferred or has run on
return; (5) once the field holds a session it holds that session in every
later state. -/
theorem Run_session_lifecycle (w : World) (fhirhost dbhost dbname : String) (debug : Bool)
    (g : GinGlobals) (k : Nat) :
    (dialSucceeded (runFor w k (initState (NewServer fhirhost dbhost dbname debug g).1)).trace
        = false →
      (runFor w k (initState (NewServer fhirhost dbhost dbname debug g).1)).p.Session = none ∧
      (runFor w k (initState (NewServer fhirhost dbhost dbname debug g).1)).deferred = []) ∧
    ((runFor w k (initState (NewServer fhirhost dbhost dbname debug g).1)).pc = PC.L73 ∨
        (runFor w k (initState (NewServer fhirhost dbhost dbname debug g).1)).pc = PC.L74 →
      (runFor w k (initState (NewServer fhirhost dbhost dbname debug g).1)).trace.any
          Event.isGet = false ∧
      ∃ s, w.mgo_Dial dbhost = Except.ok s ∧
        (runFor w k (initState (NewServer fhirhost dbhost dbname debug g).1)).p.Session
          = some s ∧
        (runFor w k (initState (NewServer fhirhost dbhost dbname debug g).1)).deferred
          = [Deferred.SessionClose (some s)]) ∧
    (∀ s, w.mgo_Dial dbhost = Except.ok s →
      (runFor w 8 (initState (NewServer fhirhost dbhost dbname debug g).1)).pc = PC.L74 ∧
      (runFor w 8 (initState (NewServer fhirhost dbhost dbname debug g).1)).status
        = Status.running) ∧
    ((runFor w k (initState (NewServer fhirhost dbhost dbname debug g).1)).trace.any
        Event.isGet = true →
      ∃ s, w.mgo_Dial dbhost = Except.ok s ∧
        (runFor w k (initState (NewServer fhirhost dbhost dbname debug g).1)).p.Session
          = some s ∧
        ((runFor w k (initState (NewServer fhirhost dbhost dbname debug g).1)).deferred
            = [Deferred.SessionClose (some s)] ∨
          (runFor w k (initState (NewServer fhirhost dbhost dbname debug g).1)).status
            = Status.returned)) ∧
    (∀ s m,
      (runFor w k (initState (NewServer fhirhost dbhost dbname debug g).1)).p.Session
        = some s →
      (runFor w (k + m) (initState (NewServer fhirhost dbhost dbname debug g).1)).p.Session
        = some s) := by
  obtain ⟨j, hj, hjeq⟩ :=
    reach_within_fuel w (NewServer fhirhost dbhost dbname debug g).1 k
  refine ⟨?_, ?_, ?_, ?_, ?_⟩
  · rw [hjeq]
    exact session_nil_before_dial w _ rfl j hj
  · rw [hjeq]
    exact session_set_at_probe w _ j hj
  · intro s hd
    exact probe_point_reached w _ s hd
  · rw [hjeq]
    exact session_set_before_probe w _ j hj
  · intro s m h
    exact session_kept w _ rfl k m s h

/-- Witness of C5 amended: the premises of the five parts hold at concrete
states of a concrete run (before the dial, at line 74, on a successful dial,
after the GET, after the assignment). -/
theorem Run_session_lifecycle_witness :
    (dialSucceeded (runFor worldUp 2 (initState demoServer)).trace = false ∧
      (runFor worldUp 2 (initState demoServer)).p.Session = none ∧
      (runFor worldUp 2 (initState demoServer)).deferred = []) ∧
    (((runFor worldUp 8 (initState demoServer)).pc = PC.L73 ∨
        (runFor worldUp 8 (initState demoServer)).pc = PC.L74) ∧
      (runFor worldUp 8 (initState demoServer)).trace.any Event.isGet = false ∧
      ∃ s, worldUp.mgo_Dial "mongo:27017" = Except.ok s ∧
        (runFor worldUp 8 (initState demoServer)).p.Session = some s ∧
        (runFor worldUp 8 (initState demoServer)).deferred
          = [Deferred.SessionClose (some s)]) ∧
    (worldUp.mgo_Dial "mongo:27017" = Except.ok { id := 7 } ∧
      (runFor worldUp 8 (initState demoServer)).pc = PC.L74 ∧
      (runFor worldUp 8 (initState demoServer)).status = Status.running) ∧
    ((runFor worldUp 9 (initState demoServer)).trace.any Event.isGet = true ∧
      ∃ s, worldUp.mgo_Dial "mongo:27017" = Except.ok s ∧
        (runFor worldUp 9 (initState demoServer)).p.Session = some s ∧
        ((runFor worldUp 9 (initState demoServer)).deferred
            = [Deferred.SessionClose (some s)] ∨
          (runFor worldUp 9 (initState demoServer)).status = Status.returned)) ∧
    ((runFor worldUp 7 (initState demoServer)).p.Session = some { id := 7 } ∧
      (runFor worldUp (7 + 5) (initState demoServer)).p.Session = some { id := 7 }) :=
  have h2 : dialSucceeded (runFor worldUp 2 (initState demoServer)).trace = false := by
    simp [runFor, step, initState, State.emit, dialSucceeded, log_Println]
  have h8 : (runFor worldUp 8 (initState demoServer)).pc = PC.L73 ∨
      (runFor worldUp 8 (initState demoServer)).pc = PC.L74 := by
    simp [runFor, step, initState, State.emit, worldUp, demoServer, NewServer]
  have h9 : (runFor worldUp 9 (initState demoServer)).trace.any Event.isGet = true := by
    simp [runFor, step, initState, State.emit, worldUp, demoServer, NewServer, log_Println,
      log_Printf, Event.isGet]
  have h7 : (runFor worldUp 7 (initState demoServer)).p.Session = some { id := 7 } := by
    simp [runFor, step, initState, State.emit, worldUp, demoServer, NewServer]
  ⟨⟨h2, (Run_session_lifecycle worldUp "http://fhir:3001" "mongo:27017" "ptmerge" false
      { modeName := "debug" } 2).1 h2⟩,
   ⟨h8, (Run_session_lifecycle worldUp "http://fhir:3001" "mongo:27017" "ptmerge" false
      { modeName := "debug" } 8).2.1 h8⟩,
   ⟨rfl, (Run_session_lifecycle worldUp "http://fhir:3001" "mongo:27017" "ptmerge" false
      { modeName := "debug" } 8).2.2.1 { id := 7 } rfl⟩,
   ⟨h9, (Run_session_lifecycle worldUp "http://fhir:3001" "mongo:27017" "ptmerge" false
      { modeName := "debug" } 9).2.2.2.1 h9⟩,
   ⟨h7, (Run_session_lifecycle worldUp "http://fhir:3001" "mongo:27017" "ptmerge" false
      { modeName := "debug" } 7).2.2.2.2 { id := 7 } 5 h7⟩⟩

/-! ## `NewServer` -/

/-- C7: for all arguments `NewServer` returns a server whose `FHIRHost`,
`DatabaseHost` and `DatabaseName` are the three string arguments and whose
`Session` is nil, and leaves the gin mode at debug when `debug` is true and at
release otherwise, whatever the mode was before. -/
theorem NewServer_fields (fhirhost dbhost dbname : String) (debug : Bool) (g : GinGlobals) :
    (NewServer fhirhost dbhost dbname debug g).1.FHIRHost = fhirhost ∧
    (NewServer fhirhost dbhost dbname debug g).1.DatabaseHost = dbhost ∧
    (NewServer fhirhost dbhost dbname debug g).1.DatabaseName = dbname ∧
    (NewServer fhirhost dbhost dbname debug g).1.Session = none ∧
    (NewServer fhirhost dbhost dbname debug g).2.modeName =
      (if debug then "debug" else "release") := by
  cases debug <;> simp [NewServer, gin_SetMode, gin_DebugMode, gin_ReleaseMode]

/-- C8: for all arguments the middleware chain of the engine `NewServer`
returns is the logger, then the recovery handler, then one cross-origin
handler, and the engine has no route. -/
theorem NewServer_middleware_chain (fhirhost dbhost dbname : String) (debug : Bool)
    (g : GinGlobals) :
    (∃ cfg, (NewServer fhirhost dbhost dbname debug g).1.Engine.Handlers =
      [HandlerFunc.Logger, HandlerFunc.Recovery, HandlerFunc.Cors cfg]) ∧
    (NewServer fhirhost dbhost dbname debug g).1.Engine.routes = [] :=
  ⟨⟨corsConfig, rfl⟩, rfl⟩

/-- C9: for all arguments the one cross-origin configuration installed by
`NewServer` has the fixed field values of the source, and its max age is
86400 seconds. -/
theorem NewServer_cors_fixed (fhirhost dbhost dbname : String) (debug : Bool)
    (g : GinGlobals) :
    (NewServer fhirhost dbhost dbname debug g).1.Engine.corsConfigs =
      [ { Origins := "*"
          Methods := "GET, PUT, POST, DELETE"
          RequestHeaders := "Origin, Authorization, Content-Type, If-Match, If-None-Exist"
          ExposedHeaders := "Location, ETag, Last-Modified"
          MaxAge := 86400 * time_Second
          Credentials := true
          ValidateHeaders := false } ] ∧
    (∀ cfg ∈ (NewServer fhirhost dbhost dbname debug g).1.Engine.corsConfigs,
      cfg.MaxAge / time_Second = 86400 ∧ cfg.MaxAge % time_Second = 0) := by
  refine ⟨rfl, ?_⟩
  intro cfg hcfg
  have h : cfg = corsConfig := by
    simpa [NewServer, Engine.corsConfigs, Engine.Use, gin_Default, gin_New, cors_Middleware]
      using hcfg
  subst h
  simp [corsConfig, time_Second]

/-! ## The log line before a fatal exit -/

theorem log_line_ne_started (c : Char) (cs : List Char) (arg : String) (hc : c ≠ 'S') :
    String.mk (c :: cs) ++ arg ++ "\n" ≠ "Started ptmerge service!\n" := by
  intro heq
  have h := congrArg String.data heq
  simp [String.data_append] at h
  exact hc h.1

/-- C10: when the dial fails, the trace of `Run` ends with the log line
"Failed to connect to mongodb at " followed by `DatabaseHost`, and then the
exit; when the dial succeeds and the probe fails, the trace holds the line
"Connected to mongodb at " followed by `DatabaseHost` and ends with the line
"Host FHIR server unavailable. Could not reach " followed by `FHIRHost`, and
then the exit; in both cases no exit happens earlier and no log call writes
"Started ptmerge service!"; and a trace of `Run` holds an exit in these two
cases only. -/
theorem Run_exit_log_line (w : World) (p : PTMergeServer) :
    (∀ e, w.mgo_Dial p.DatabaseHost = Except.error e →
      (∃ pre, (Run w p).trace = pre ++
          [ Event.log ("Failed to connect to mongodb at " ++ p.DatabaseHost ++ "\n"),
            Event.exit 1 ] ∧
        pre.any Event.isExit = false) ∧
      Event.log "Started ptmerge service!\n" ∉ (Run w p).trace) ∧
    (∀ s e, w.mgo_Dial p.DatabaseHost = Except.ok s →
      w.http_Get (p.FHIRHost ++ "/metadata") = Except.error e →
      (∃ pre, (Run w p).trace = pre ++
          [ Event.log ("Host FHIR server unavailable. Could not reach " ++ p.FHIRHost ++ "\n"),
            Event.exit 1 ] ∧
        Event.log ("Connected to mongodb at " ++ p.DatabaseHost ++ "\n") ∈ pre ∧
        pre.any Event.isExit = false) ∧
      Event.log "Started ptmerge service!\n" ∉ (Run w p).trace) ∧
    ((Run w p).trace.any Event.isExit = true →
      (∃ e, w.mgo_Dial p.DatabaseHost = Except.error e) ∨
      (∃ s e, w.mgo_Dial p.DatabaseHost = Except.ok s ∧
        w.http_Get (p.FHIRHost ++ "/metadata") = Except.error e)) := by
  have hF : ∀ arg : String,
      "Failed to connect to mongodb at " ++ arg ++ "\n" ≠ "Started ptmerge service!\n" :=
    fun arg => log_line_ne_started 'F' _ arg (by decide)
  have hC : ∀ arg : String,
      "Connected to mongodb at " ++ arg ++ "\n" ≠ "Started ptmerge service!\n" :=
    fun arg => log_line_ne_started 'C' _ arg (by decide)
  have hH : ∀ arg : String,
      "Host FHIR server unavailable. Could not reach " ++ arg ++ "\n"
        ≠ "Started ptmerge service!\n" :=
    fun arg => log_line_ne_started 'H' _ arg (by decide)
  refine ⟨?_, ?_, ?_⟩
  · intro e hd
    rw [Run_dial_error w p e hd]
    refine ⟨⟨traceDial p (Except.error e), rfl, ?_⟩, ?_⟩
    · simp [traceDial, log_Println, Event.isExit]
    · simp [traceDial, log_Println, log_Printf]
      exact fun h => hF _ h.symm
  · intro s e hd hg
    rw [Run_probe_error w p s e hd hg]
    refine ⟨⟨traceDial p (Except.ok s) ++ traceProbe p (Except.error e), rfl, ?_, ?_⟩, ?_⟩
    · simp [traceProbe, log_Printf]
    · simp [traceDial, traceProbe, log_Println, log_Printf, Event.isExit]
    · simp [traceDial, traceProbe, log_Println, log_Printf]
      exact ⟨fun h => hC _ h.symm, fun h => hH _ h.symm⟩
  · intro hex
    cases hd : w.mgo_Dial p.DatabaseHost with
    | error e => exact Or.inl ⟨e, rfl⟩
    | ok s =>
      cases hg : w.http_Get (p.FHIRHost ++ "/metadata") with
      | error e => exact Or.inr ⟨s, e, rfl, rfl⟩
      | ok r =>
        exfalso
        revert hex
        cases hl : w.listenReturns ":5000" with
        | false =>
          rw [Run_serving w p s r hd hg hl]
          simp [traceDial, traceProbe, traceServe, log_Println, log_Printf, Event.isExit]
        | true =>
          rw [Run_returned w p s r hd hg hl]
          simp [traceDial, traceProbe, traceServe, log_Println, log_Printf, Event.isExit]

/-- Witness of C10: the premises of the three parts hold on the run with the
store down, on the run with the probe down, and again on the latter, whose
trace holds an exit. -/
theorem Run_exit_log_line_witness :
    (worldStoreDown.mgo_Dial demoServer.DatabaseHost = Except.error "no reachable servers" ∧
      (∃ pre, (Run worldStoreDown demoServer).trace = pre ++
          [ Event.log ("Failed to connect to mongodb at " ++ demoServer.DatabaseHost ++ "\n"),
            Event.exit 1 ] ∧
        pre.any Event.isExit = false) ∧
      Event.log "Started ptmerge service!\n" ∉ (Run worldStoreDown demoServer).trace) ∧
    ((worldProbeDown.mgo_Dial demoServer.DatabaseHost = Except.ok { id := 7 } ∧
      worldProbeDown.http_Get (demoServer.FHIRHost ++ "/metadata")
        = Except.error "connection refused") ∧
      (∃ pre, (Run worldProbeDown demoServer).trace = pre ++
          [ Event.log ("Host FHIR server unavailable. Could not reach " ++
              demoServer.FHIRHost ++ "\n"),
            Event.exit 1 ] ∧
        Event.log ("Connected to mongodb at " ++ demoServer.DatabaseHost ++ "\n") ∈ pre ∧
        pre.any Event.isExit = false) ∧
      Event.log "Started ptmerge service!\n" ∉ (Run worldProbeDown demoServer).trace) ∧
    ((Run worldProbeDown demoServer).trace.any Event.isExit = true ∧
      ((∃ e, worldProbeDown.mgo_Dial demoServer.DatabaseHost = Except.error e) ∨
        (∃ s e, worldProbeDown.mgo_Dial demoServer.DatabaseHost = Except.ok s ∧
          worldProbeDown.http_Get (demoServer.FHIRHost ++ "/metadata") = Except.error e))) :=
  have hex : (Run worldProbeDown demoServer).trace.any Event.isExit = true := by
    rw [Run_probe_error worldProbeDown demoServer { id := 7 } "connection refused" rfl rfl]
    simp [Event.isExit]
  ⟨⟨rfl, (Run_exit_log_line worldStoreDown demoServer).1 _ rfl⟩,
   ⟨⟨rfl, rfl⟩, (Run_exit_log_line worldProbeDown demoServer).2.1 _ _ rfl rfl⟩,
   ⟨hex, (Run_exit_log_line worldProbeDown demoServer).2.2 hex⟩⟩

end PTMerge
